import Mathlib

/-
Verification development for the SatOP flight-planning plugin
(src/scheduling.py). The plugin keeps an in-memory dict
`flight_plans_missing_approval : dict[UUID, FlightPlan]`, a save handler
`new_flihtplan_schedule`, a decision handler `approve_flight_plan`, a
background dispatch step `_do_send_to_gs`, and a transmission builder
`send_to_gs`. Each Python function is embedded below as a pure Lean
function; external collaborators (artifact store, compiler, ground-station
directory, transport acknowledgement) are passed in as explicit arguments,
and every observable effect (registry state, scheduled background tasks,
compiler invocations, transport calls, audit events) is returned in the
output record.
-/

namespace SatOP

/-- Opaque model of a Python `dict` payload (the flight-plan command body and
the compiled plan); the scheduling code never inspects these values. -/
abbrev PyDict := String

/-- A UUID value, represented by its normalized lowercase 32-digit
hexadecimal string (Python `uuid.UUID` objects compare equal exactly when
their normalized hex digits agree). -/
abbrev UUIDv := String

def isHexChar (c : Char) : Bool :=
  c.isDigit || ('a' ≤ c && c ≤ 'f') || ('A' ≤ c && c ≤ 'F')

/-- Modelled from the Python standard library constructor `uuid.UUID(hex)`
(not part of this repository): dashes are removed and the result must be
exactly 32 hexadecimal digits, otherwise `ValueError` is raised (modelled as
`none`). The stdlib additionally strips `urn:`/`uuid:` markers and
surrounding braces; no input in this development uses those forms, so that
step is omitted. The returned `UUIDv` is the normalized lowercase hex
string. -/
def parseUUID (s : String) : Option UUIDv :=
  let hex := s.toList.filter (fun c => c != '-')
  if hex.length == 32 && hex.all isHexChar then
    some (String.mk (hex.map Char.toLower))
  else
    none

/-- The pydantic `FlightPlan` model of src/scheduling.py. The three scalar
fields are declared `str` in pydantic; they are modelled as `Option String`
(with `none` for Python `None`) so that the handler's literal
`x is None or x == ""` checks are representable. -/
structure FlightPlan where
  flight_plan : PyDict
  datetime : Option String
  gs_id : Option String
  sat_name : Option String
deriving DecidableEq, Repr

/-- The in-memory pending map `flight_plans_missing_approval`, as an
association list with unique keys (Python `dict` semantics). -/
abbrev Registry := List (UUIDv × FlightPlan)

/-- Python `d.get(k)`. -/
def dictGet (d : Registry) (k : UUIDv) : Option FlightPlan :=
  (d.find? (fun p => p.1 == k)).map Prod.snd

/-- Removal of every binding of `k` (with unique keys: of the binding of
`k`, if any). -/
def eraseKey (d : Registry) (k : UUIDv) : Registry :=
  d.filter (fun p => p.1 != k)

/-- Python `d[k] = v`: update-or-insert. -/
def dictSet (d : Registry) (k : UUIDv) (v : FlightPlan) : Registry :=
  eraseKey d k ++ [(k, v)]

/-- Python `d.pop(k)` with no default: `none` models the raised `KeyError`,
otherwise the stored value and the shrunk dict are returned. -/
def dictPop (d : Registry) (k : UUIDv) : Option (FlightPlan × Registry) :=
  match dictGet d k with
  | none => none
  | some v => some (v, eraseKey d k)

/-- The object of a `models.EventObjectRelationship` (platform audit-log
model): a user entity, an artifact, or a system entity. -/
inductive EntityRef where
  | user (id : String)
  | artifact (sha1 : String)
  | system (id : String)
deriving DecidableEq, Repr

/-- One `models.EventObjectRelationship`: predicate descriptor plus
object. -/
structure EventRel where
  predicate : String
  object : EntityRef
deriving DecidableEq, Repr

/-- One `models.Event` sent to `sys_log.log_event`. -/
structure Event where
  descriptor : String
  relationships : List EventRel
deriving DecidableEq, Repr

/-- The Python check `x is None or x == ""` used on the three scalar
fields of a submitted flight plan. -/
def isMissingField (o : Option String) : Bool :=
  match o with
  | none => true
  | some s => s == ""

/-- Outcome of `sys_log.create_artifact`: either a fresh artifact is created
(returning its sha1), or the content already exists and sqlalchemy raises
`IntegrityError` carrying the existing sha1 in `e.params[0]`. -/
inductive ArtifactOutcome where
  | created (sha1 : String)
  | integrityError (existingSha1 : String)
deriving DecidableEq, Repr

/-- Return value of the save handler: a bare rejection string, or the
success dict with keys `message` and `fp_id`. -/
inductive SaveResult where
  | rejected (msg : String)
  | scheduled (message : String) (fp_id : String)
deriving DecidableEq, Repr

/-- Everything observable about one run of the save handler. -/
structure SaveOutput where
  result : SaveResult
  flight_plans_missing_approval : Registry
  auditEvents : List Event
deriving DecidableEq, Repr

/-- The save handler `new_flihtplan_schedule` of src/scheduling.py
(lines 86-141). `artifactStore` is the externally determined outcome of
`sys_log.create_artifact` on this payload; `freshUuid` is the value drawn
by `uuid.uuid4()`. -/
def new_flihtplan_schedule (st : Registry) (flight_plan : FlightPlan)
    (user_id : String) (artifactStore : ArtifactOutcome)
    (freshUuid : UUIDv) : SaveOutput :=
  if isMissingField flight_plan.sat_name then
    ⟨.rejected "Rejected, Missing Satellite reference", st, []⟩
  else if isMissingField flight_plan.datetime then
    ⟨.rejected "Rejected, Missing datetime", st, []⟩
  else if isMissingField flight_plan.gs_id then
    ⟨.rejected "Rejected, Missing GS ID", st, []⟩
  else
    let artifact_in_id :=
      match artifactStore with
      | .created s => s
      | .integrityError s => s
    let st' := dictSet st freshUuid flight_plan
    { result := .scheduled "Flight plan scheduled for approval" freshUuid
      flight_plans_missing_approval := st'
      auditEvents :=
        [⟨"FlightplanSaveEvent",
          [⟨"startedBy", .user user_id⟩,
           ⟨"created", .artifact artifact_in_id⟩]⟩] }

/-- A background task added via `background_tasks.add_task(self._do_send_to_gs, ...)`:
the four arguments it is scheduled with. -/
structure DispatchTask where
  flight_plan_uuid : UUIDv
  compiled_plan : PyDict
  artifact_id : String
  user_id : String
deriving DecidableEq, Repr

/-- How one run of the decision handler ends. `raisedError` models an
uncaught `ValueError`/`TypeError` escaping from a `UUID(...)` conversion;
`notFound` the `HTTPException` 404; `compileError` an exception propagating
out of the compiler call. -/
inductive ApproveOutcome where
  | raisedError
  | notFound
  | notApproved (msg : String)
  | compileError
  | approved (msg : String)
deriving DecidableEq, Repr

/-- Everything observable about one run of the decision handler:
its outcome, the registry afterwards, the background tasks it scheduled,
the compiler invocations it made (body, user), and the audit events it
emitted (the handler emits none). -/
structure ApproveOutput where
  outcome : ApproveOutcome
  flight_plans_missing_approval : Registry
  tasks : List DispatchTask
  compilerCalls : List (PyDict × String)
  auditEvents : List Event
deriving DecidableEq, Repr

/-- The decision handler `approve_flight_plan` of src/scheduling.py
(lines 161-198). `compiler` is the externally determined result of
`self.call_function("Compiler", "compile", body, user)`: `none` models the
call raising, `some (compiled_plan, artifact_id)` a successful return. -/
def approve_flight_plan (st : Registry) (flight_plan_uuid : String)
    (approved : Bool) (user_id : String)
    (compiler : Option (PyDict × String)) : ApproveOutput :=
  match parseUUID flight_plan_uuid with
  | none => ⟨.raisedError, st, [], [], []⟩
  | some u =>
    match dictGet st u with
    | none => ⟨.notFound, st, [], [], []⟩
    | some fp =>
      match fp.gs_id with
      | none => ⟨.raisedError, st, [], [], []⟩
      | some g =>
        match parseUUID g with
        | none => ⟨.raisedError, st, [], [], []⟩
        | some _ =>
          if !approved then
            ⟨.notApproved "Flight plan not approved by user", st, [], [], []⟩
          else
            match compiler with
            | none => ⟨.compileError, st, [], [(fp.flight_plan, user_id)], []⟩
            | some (compiled_plan, artifact_id) =>
              ⟨.approved "Flight plan approved and scheduled for transmission to ground station.",
               st,
               [⟨u, compiled_plan, artifact_id, user_id⟩],
               [(fp.flight_plan, user_id)],
               []⟩

/-- The `header_data` dict of a `FramedContent` frame: discriminator
`type`, and the `data` sub-dict's `time` and `satellite` values (which the
code copies verbatim from the stored flight plan, hence `Option String`). -/
structure HeaderData where
  type : String
  time : Option String
  satellite : Option String
deriving DecidableEq, Repr

/-- The `FramedContent` message handed to `gs_connector.send_control`. -/
structure FramedContent where
  header_data : HeaderData
  frames : List PyDict
deriving DecidableEq, Repr

/-- Everything observable about one run of `send_to_gs`: its return value
and the transport calls it made. -/
structure SendOutput where
  gs_rtn_msg : String
  transportCalls : List (UUIDv × FramedContent)
deriving DecidableEq, Repr

/-- `Scheduling.send_to_gs` of src/scheduling.py (lines 244-276).
`registered_groundstations` is the key set of the external ground-station
directory; `transportAck` the acknowledgement `send_control` would
return. `artifact_id` is unused by the code (its own TODO notes this). -/
def send_to_gs (registered_groundstations : List UUIDv)
    (transportAck : String) (artifact_id : String) (compiled_plan : PyDict)
    (gs_id : UUIDv) (datetime : Option String) (satellite : Option String) :
    SendOutput :=
  if !(registered_groundstations.contains gs_id) then
    ⟨"GS not found", []⟩
  else
    let frame : FramedContent :=
      ⟨⟨"schedule_transmission", datetime, satellite⟩, [compiled_plan]⟩
    ⟨transportAck, [(gs_id, frame)]⟩

/-- How one run of the background dispatch step ends: `raisedKeyError`
models `dict.pop` raising on an absent key, `raisedError` an uncaught
`UUID(...)` conversion failure, `completed msg` a normal return whose
`gs_rtn_msg` was `msg`. -/
inductive DispatchOutcome where
  | raisedKeyError
  | raisedError
  | completed (gs_rtn_msg : String)
deriving DecidableEq, Repr

/-- Everything observable about one run of the background dispatch step. -/
structure DispatchOutput where
  outcome : DispatchOutcome
  flight_plans_missing_approval : Registry
  transportCalls : List (UUIDv × FramedContent)
  auditEvents : List Event
deriving DecidableEq, Repr

/-- The background dispatch step `Scheduling._do_send_to_gs` of
src/scheduling.py (lines 200-241), run with the arguments a `DispatchTask`
was scheduled with. Note the bare `self.flight_plans_missing_approval.pop(flight_plan_uuid)`:
on an absent key it raises `KeyError` (modelled by `dictPop` returning
`none`). -/
def _do_send_to_gs (st : Registry) (registered_groundstations : List UUIDv)
    (transportAck : String) (task : DispatchTask) : DispatchOutput :=
  match dictPop st task.flight_plan_uuid with
  | none => ⟨.raisedKeyError, st, [], []⟩
  | some (fp, st') =>
    match fp.gs_id with
    | none => ⟨.raisedError, st', [], []⟩
    | some g =>
      match parseUUID g with
      | none => ⟨.raisedError, st', [], []⟩
      | some gsu =>
        let out := send_to_gs registered_groundstations transportAck
          task.artifact_id task.compiled_plan gsu fp.datetime fp.sat_name
        ⟨.completed out.gs_rtn_msg, st', out.transportCalls,
         [⟨"ApprovedForSendOffEvent",
           [⟨"sentBy", .user task.user_id⟩,
            ⟨"used", .artifact task.artifact_id⟩,
            ⟨"sentTo", .system gsu⟩]⟩]⟩

/-! ### Dictionary lemmas -/

theorem dictGet_eraseKey_self (d : Registry) (k : UUIDv) :
    dictGet (eraseKey d k) k = none := by
  induction d with
  | nil => rfl
  | cons p t ih =>
    by_cases h : p.1 = k
    · simpa [eraseKey, dictGet, h] using ih
    · simpa [eraseKey, dictGet, List.find?, h] using ih

theorem eraseKey_of_get_none (d : Registry) (k : UUIDv)
    (h : dictGet d k = none) : eraseKey d k = d := by
  induction d with
  | nil => rfl
  | cons p t ih =>
    by_cases hpk : p.1 = k
    · simp [dictGet, List.find?, hpk] at h
    · simp only [dictGet, List.find?, Option.map_eq_none] at h
      rw [show (p.1 == k) = false by simp [hpk]] at h
      simp only [eraseKey, List.filter]
      rw [show (p.1 != k) = true by simp [hpk]]
      have ht : eraseKey t k = t := by
        apply ih
        simp only [dictGet, Option.map_eq_none]
        simpa using h
      simpa [eraseKey] using ht

/-- The registry state left by `_do_send_to_gs` when the task's identifier
is present: the entry is removed, whatever happens afterwards. -/
theorem _do_send_to_gs_state_of_present (st : Registry) (regs : List UUIDv)
    (ack : String) (task : DispatchTask) (fp : FlightPlan)
    (h : dictGet st task.flight_plan_uuid = some fp) :
    (_do_send_to_gs st regs ack task).flight_plans_missing_approval
      = eraseKey st task.flight_plan_uuid := by
  unfold _do_send_to_gs dictPop
  simp only [h]
  cases hg : fp.gs_id with
  | none => rfl
  | some g =>
    cases hp : parseUUID g with
    | none => simp only [hp]
    | some gsu => simp only [hp]

/-! ### Concrete fixtures (drawn from the repository's own example payload) -/

/-- The ground-station UUID string of the repository's example payload. -/
def gsUuidStr : String := "86c8a92b-571a-46cb-b306-e9be71959279"

/-- `gsUuidStr` in normalized form. -/
def gsUuidNorm : UUIDv := "86c8a92b571a46cbb306e9be71959279"

/-- A fixed registry key (already in normalized form, so the same string
also parses as a UUID path parameter). -/
def idA : UUIDv := "0123456789abcdef0123456789abcdef"

/-- A well-formed stored flight plan. -/
def fpOk : FlightPlan :=
  ⟨"commands-body", some "2025-01-01T12:00:00+01:00", some gsUuidStr, some "SAT-1"⟩

/-- A stored flight plan whose `gs_id` is a non-empty string that is not a
valid UUID. The save handler checks only non-emptiness of `gs_id`, so such
an entry is reachable through a normal submission. -/
def fpBadGs : FlightPlan :=
  ⟨"commands-body", some "2025-01-01T12:00:00+01:00", some "abc", some "SAT-1"⟩

/-- A submission missing the satellite name. -/
def fpNoSat : FlightPlan :=
  ⟨"commands-body", some "2025-01-01T12:00:00+01:00", some gsUuidStr, some ""⟩

/-- A submission missing the transmission timestamp (Python `None`). -/
def fpNoDt : FlightPlan :=
  ⟨"commands-body", none, some gsUuidStr, some "SAT-1"⟩

/-- A submission missing the ground-station identifier. -/
def fpNoGs : FlightPlan :=
  ⟨"commands-body", some "2025-01-01T12:00:00+01:00", some "", some "SAT-1"⟩

/-! ### Claims -/

/-- Claim C2 (confirmed): a decision request whose (well-formed) identifier
is not present in the registry fails with the distinct NotFound outcome and
has no side effects at all — the registry is unchanged, the compiler is not
invoked, no dispatch task is scheduled and no audit event is emitted,
whether the decision is approve or reject. -/
theorem c2_unknown_id_no_side_effects (st : Registry) (s : String) (u : UUIDv)
    (approved : Bool) (user_id : String) (compiler : Option (PyDict × String))
    (hparse : parseUUID s = some u) (habsent : dictGet st u = none) :
    approve_flight_plan st s approved user_id compiler
      = ⟨ApproveOutcome.notFound, st, [], [], []⟩ := by
  unfold approve_flight_plan
  simp only [hparse, habsent]

theorem c2_witness :
    approve_flight_plan [] gsUuidStr true "alice" (some ("cp", "aid"))
      = ⟨ApproveOutcome.notFound, [], [], [], []⟩ :=
  c2_unknown_id_no_side_effects [] gsUuidStr gsUuidNorm true "alice"
    (some ("cp", "aid")) rfl rfl

/-- Claim C3 (confirmed): a submission missing the satellite name, the
timestamp or the ground-station identifier (Python `None` or the empty
string) is rejected with a distinct message for each field, checked in the
order satellite name, then timestamp, then ground-station identifier; no
exception is raised, the registry is unchanged (no entry is inserted) and
no audit event is emitted. -/
theorem c3_validation_order (st : Registry) (fp : FlightPlan)
    (user_id : String) (art : ArtifactOutcome) (fresh : UUIDv) :
    (isMissingField fp.sat_name = true →
      new_flihtplan_schedule st fp user_id art fresh
        = ⟨SaveResult.rejected "Rejected, Missing Satellite reference", st, []⟩)
    ∧ (isMissingField fp.sat_name = false → isMissingField fp.datetime = true →
      new_flihtplan_schedule st fp user_id art fresh
        = ⟨SaveResult.rejected "Rejected, Missing datetime", st, []⟩)
    ∧ (isMissingField fp.sat_name = false → isMissingField fp.datetime = false →
        isMissingField fp.gs_id = true →
      new_flihtplan_schedule st fp user_id art fresh
        = ⟨SaveResult.rejected "Rejected, Missing GS ID", st, []⟩) := by
  refine ⟨fun h1 => ?_, fun h1 h2 => ?_, fun h1 h2 h3 => ?_⟩
  · simp [new_flihtplan_schedule, h1]
  · simp [new_flihtplan_schedule, h1, h2]
  · simp [new_flihtplan_schedule, h1, h2, h3]

theorem c3_witness :
    (new_flihtplan_schedule [] fpNoSat "alice" (ArtifactOutcome.created "sha") idA
      = ⟨SaveResult.rejected "Rejected, Missing Satellite reference", [], []⟩)
    ∧ (new_flihtplan_schedule [] fpNoDt "alice" (ArtifactOutcome.created "sha") idA
      = ⟨SaveResult.rejected "Rejected, Missing datetime", [], []⟩)
    ∧ (new_flihtplan_schedule [] fpNoGs "alice" (ArtifactOutcome.created "sha") idA
      = ⟨SaveResult.rejected "Rejected, Missing GS ID", [], []⟩) :=
  ⟨(c3_validation_order [] fpNoSat "alice" (ArtifactOutcome.created "sha") idA).1 rfl,
   (c3_validation_order [] fpNoDt "alice" (ArtifactOutcome.created "sha") idA).2.1 rfl rfl,
   (c3_validation_order [] fpNoGs "alice" (ArtifactOutcome.created "sha") idA).2.2 rfl rfl rfl⟩

/-- Claim C9 (confirmed): a decision request whose identifier string is not
a syntactically valid UUID raises an uncaught parse error before the
registry lookup — the outcome is the uncaught-error outcome, distinct from
NotFound, and all state is untouched. -/
theorem c9_invalid_uuid_raises (st : Registry) (s : String) (approved : Bool)
    (user_id : String) (compiler : Option (PyDict × String))
    (hparse : parseUUID s = none) :
    approve_flight_plan st s approved user_id compiler
        = ⟨ApproveOutcome.raisedError, st, [], [], []⟩
    ∧ (approve_flight_plan st s approved user_id compiler).outcome
        ≠ ApproveOutcome.notFound := by
  have h : approve_flight_plan st s approved user_id compiler
      = ⟨ApproveOutcome.raisedError, st, [], [], []⟩ := by
    unfold approve_flight_plan
    simp only [hparse]
  exact ⟨h, by simp [h]⟩

theorem c9_witness :
    approve_flight_plan [(idA, fpOk)] "not-a-uuid" true "alice" (some ("cp", "aid"))
        = ⟨ApproveOutcome.raisedError, [(idA, fpOk)], [], [], []⟩
    ∧ (approve_flight_plan [(idA, fpOk)] "not-a-uuid" true "alice" (some ("cp", "aid"))).outcome
        ≠ ApproveOutcome.notFound :=
  c9_invalid_uuid_raises [(idA, fpOk)] "not-a-uuid" true "alice" (some ("cp", "aid")) rfl

/-- Claim C1, counterexample: the claim states that a later removal attempt
for an already-removed identifier observes NotFound rather than raising an
error and aborts silently. In the code the removal is a bare `dict.pop`,
which raises `KeyError` on the second attempt: here the first dispatch for
`idA` succeeds (the transport is reached and acknowledges), and an
identical second dispatch ends in the raised-`KeyError` outcome, not a
silent NotFound. -/
theorem c1_counterexample :
    (_do_send_to_gs [(idA, fpOk)] [gsUuidNorm] "ack" ⟨idA, "cp", "aid", "alice"⟩).outcome
        = DispatchOutcome.completed "ack"
    ∧ (_do_send_to_gs
        (_do_send_to_gs [(idA, fpOk)] [gsUuidNorm] "ack" ⟨idA, "cp", "aid", "alice"⟩).flight_plans_missing_approval
        [gsUuidNorm] "ack" ⟨idA, "cp", "aid", "alice"⟩).outcome
        = DispatchOutcome.raisedKeyError :=
  ⟨rfl, rfl⟩

/-- Claim C1 (amended): for every identifier, at most one removal ever
succeeds — the first dispatch for a present identifier removes the entry
(obtaining exactly the stored plan), and any later dispatch attempt for the
same identifier raises `KeyError` (an uncaught error inside the background
worker) rather than observing a silent NotFound; so under two dispatch
attempts on the same identifier exactly one proceeds and the other dies
with an uncaught exception. -/
theorem c1_removal_at_most_once (st : Registry) (regs : List UUIDv)
    (ack ack' : String) (task : DispatchTask) (fp : FlightPlan)
    (h : dictGet st task.flight_plan_uuid = some fp) :
    dictPop st task.flight_plan_uuid = some (fp, eraseKey st task.flight_plan_uuid)
    ∧ dictGet (_do_send_to_gs st regs ack task).flight_plans_missing_approval
        task.flight_plan_uuid = none
    ∧ (_do_send_to_gs (_do_send_to_gs st regs ack task).flight_plans_missing_approval
        regs ack' task).outcome = DispatchOutcome.raisedKeyError := by
  have hstate := _do_send_to_gs_state_of_present st regs ack task fp h
  refine ⟨?_, ?_, ?_⟩
  · unfold dictPop
    rw [h]
  · rw [hstate]
    exact dictGet_eraseKey_self st task.flight_plan_uuid
  · rw [hstate]
    unfold _do_send_to_gs dictPop
    rw [dictGet_eraseKey_self]

theorem c1_removal_at_most_once_witness :
    dictPop [(idA, fpOk)] idA = some (fpOk, [])
    ∧ dictGet (_do_send_to_gs [(idA, fpOk)] [gsUuidNorm] "a1"
        ⟨idA, "cp", "aid", "alice"⟩).flight_plans_missing_approval idA = none
    ∧ (_do_send_to_gs (_do_send_to_gs [(idA, fpOk)] [gsUuidNorm] "a1"
        ⟨idA, "cp", "aid", "alice"⟩).flight_plans_missing_approval
        [gsUuidNorm] "a2" ⟨idA, "cp", "aid", "alice"⟩).outcome
        = DispatchOutcome.raisedKeyError :=
  c1_removal_at_most_once [(idA, fpOk)] [gsUuidNorm] "a1" "a2"
    ⟨idA, "cp", "aid", "alice"⟩ fpOk rfl

/-- Claim C4, counterexample: the claim quantifies over every reject
decision on a present identifier, but the code converts the stored entry's
`gs_id` with `UUID(...)` before looking at the decision flag. An entry
whose `gs_id` is the non-empty non-UUID string "abc" is reachable through a
normal submission, and rejecting it raises an uncaught conversion error
instead of returning the "not approved" message. -/
theorem c4_counterexample :
    (approve_flight_plan [(idA, fpBadGs)] idA false "alice" none).outcome
        = ApproveOutcome.raisedError
    ∧ (approve_flight_plan [(idA, fpBadGs)] idA false "alice" none).outcome
        ≠ ApproveOutcome.notApproved "Flight plan not approved by user"
    ∧ dictGet [(idA, fpBadGs)] idA = some fpBadGs := by
  refine ⟨rfl, by decide, rfl⟩

/-- Claim C4 (amended): for every reject decision on a present identifier
whose stored ground-station identifier parses as a UUID, the decision
returns the "not approved" message, invokes neither the compiler (no
compiler call is recorded, hence the transport — reachable only through a
dispatch task — is not reached either), schedules no dispatch task, emits
no audit event, and leaves the registry unchanged. -/
theorem c4_reject_is_pure (st : Registry) (s : String) (u : UUIDv)
    (fp : FlightPlan) (g : String) (gsu : UUIDv) (user_id : String)
    (compiler : Option (PyDict × String))
    (hparse : parseUUID s = some u) (hget : dictGet st u = some fp)
    (hgs : fp.gs_id = some g) (hgsparse : parseUUID g = some gsu) :
    approve_flight_plan st s false user_id compiler
      = ⟨ApproveOutcome.notApproved "Flight plan not approved by user",
         st, [], [], []⟩ := by
  unfold approve_flight_plan
  simp only [hparse, hget, hgs, hgsparse, Bool.not_false, if_true]

theorem c4_reject_is_pure_witness :
    approve_flight_plan [(idA, fpOk)] idA false "alice" (some ("cp", "aid"))
      = ⟨ApproveOutcome.notApproved "Flight plan not approved by user",
         [(idA, fpOk)], [], [], []⟩ :=
  c4_reject_is_pure [(idA, fpOk)] idA idA fpOk gsUuidStr gsUuidNorm "alice"
    (some ("cp", "aid")) rfl rfl rfl rfl

/-- Claim C5, counterexample: the claim states that no approved entry (with
dispatch scheduled) remains in the registry once the decision call that
approved it has returned. In the code the entry is removed only inside the
background task, which runs after the handler returns: here the approving
call has returned (outcome `approved`), a dispatch task is scheduled, and
the entry is still present in the returned registry state. -/
theorem c5_counterexample :
    (approve_flight_plan [(idA, fpOk)] idA true "alice" (some ("cp", "aid"))).outcome
        = ApproveOutcome.approved
            "Flight plan approved and scheduled for transmission to ground station."
    ∧ (approve_flight_plan [(idA, fpOk)] idA true "alice" (some ("cp", "aid"))).tasks
        = [⟨idA, "cp", "aid", "alice"⟩]
    ∧ dictGet (approve_flight_plan [(idA, fpOk)] idA true "alice"
        (some ("cp", "aid"))).flight_plans_missing_approval idA = some fpOk :=
  ⟨rfl, rfl, rfl⟩

/-- Claim C5 (amended): after an approving decision call returns, the
approved entry is still in the registry (the call leaves the registry
unchanged) together with exactly one scheduled dispatch task for it; the
entry leaves the registry only when that background dispatch task runs. -/
theorem c5_removed_only_at_dispatch (st : Registry) (s : String) (u : UUIDv)
    (fp : FlightPlan) (g : String) (gsu : UUIDv) (user_id : String)
    (cp : PyDict) (aid : String) (regs : List UUIDv) (ack : String)
    (hparse : parseUUID s = some u) (hget : dictGet st u = some fp)
    (hgs : fp.gs_id = some g) (hgsparse : parseUUID g = some gsu) :
    (approve_flight_plan st s true user_id (some (cp, aid))).flight_plans_missing_approval
        = st
    ∧ (approve_flight_plan st s true user_id (some (cp, aid))).tasks
        = [⟨u, cp, aid, user_id⟩]
    ∧ dictGet (_do_send_to_gs st regs ack
        ⟨u, cp, aid, user_id⟩).flight_plans_missing_approval u = none := by
  have happ : approve_flight_plan st s true user_id (some (cp, aid))
      = ⟨ApproveOutcome.approved
           "Flight plan approved and scheduled for transmission to ground station.",
         st, [⟨u, cp, aid, user_id⟩], [(fp.flight_plan, user_id)], []⟩ := by
    unfold approve_flight_plan
    simp only [hparse, hget, hgs, hgsparse]
    rfl
  have hstate := _do_send_to_gs_state_of_present st regs ack
    ⟨u, cp, aid, user_id⟩ fp hget
  refine ⟨by rw [happ], by rw [happ], ?_⟩
  rw [hstate]
  exact dictGet_eraseKey_self st u

theorem c5_removed_only_at_dispatch_witness :
    (approve_flight_plan [(idA, fpOk)] idA true "alice"
        (some ("cp", "aid"))).flight_plans_missing_approval = [(idA, fpOk)]
    ∧ (approve_flight_plan [(idA, fpOk)] idA true "alice"
        (some ("cp", "aid"))).tasks = [⟨idA, "cp", "aid", "alice"⟩]
    ∧ dictGet (_do_send_to_gs [(idA, fpOk)] [gsUuidNorm] "ack"
        ⟨idA, "cp", "aid", "alice"⟩).flight_plans_missing_approval idA = none :=
  c5_removed_only_at_dispatch [(idA, fpOk)] idA idA fpOk gsUuidStr gsUuidNorm
    "alice" "cp" "aid" [gsUuidNorm] "ack" rfl rfl rfl rfl

/-- Full evaluation of the background dispatch step when the task's
identifier is present and the stored ground-station identifier parses. -/
theorem _do_send_to_gs_eq_of_resolved (st : Registry) (regs : List UUIDv)
    (ack : String) (task : DispatchTask) (fp : FlightPlan) (g : String)
    (gsu : UUIDv) (h : dictGet st task.flight_plan_uuid = some fp)
    (hgs : fp.gs_id = some g) (hp : parseUUID g = some gsu) :
    _do_send_to_gs st regs ack task =
      ⟨.completed (send_to_gs regs ack task.artifact_id task.compiled_plan gsu
          fp.datetime fp.sat_name).gs_rtn_msg,
       eraseKey st task.flight_plan_uuid,
       (send_to_gs regs ack task.artifact_id task.compiled_plan gsu
          fp.datetime fp.sat_name).transportCalls,
       [⟨"ApprovedForSendOffEvent",
         [⟨"sentBy", .user task.user_id⟩,
          ⟨"used", .artifact task.artifact_id⟩,
          ⟨"sentTo", .system gsu⟩]⟩]⟩ := by
  unfold _do_send_to_gs dictPop
  simp only [h, hgs, hp]

/-- Claim C6 (confirmed): when the ground-station identifier of a
dispatched approved plan resolves in the directory, the single frame
delivered to the transport carries the discriminator
`schedule_transmission` together with the plan's transmission timestamp and
satellite name in its header and the compiled representation as its body;
the worker completes with the transport acknowledgement and emits exactly
one completion audit event. -/
theorem c6_frame_contents (st : Registry) (regs : List UUIDv) (ack : String)
    (task : DispatchTask) (fp : FlightPlan) (g : String) (gsu : UUIDv)
    (hget : dictGet st task.flight_plan_uuid = some fp)
    (hgs : fp.gs_id = some g) (hgsparse : parseUUID g = some gsu)
    (hreg : regs.contains gsu = true) :
    (_do_send_to_gs st regs ack task).transportCalls
      = [(gsu, ⟨⟨"schedule_transmission", fp.datetime, fp.sat_name⟩,
                [task.compiled_plan]⟩)]
    ∧ (_do_send_to_gs st regs ack task).outcome = DispatchOutcome.completed ack
    ∧ (_do_send_to_gs st regs ack task).auditEvents
      = [⟨"ApprovedForSendOffEvent",
          [⟨"sentBy", .user task.user_id⟩,
           ⟨"used", .artifact task.artifact_id⟩,
           ⟨"sentTo", .system gsu⟩]⟩] := by
  have hsend : send_to_gs regs ack task.artifact_id task.compiled_plan gsu
      fp.datetime fp.sat_name
      = ⟨ack, [(gsu, ⟨⟨"schedule_transmission", fp.datetime, fp.sat_name⟩,
                      [task.compiled_plan]⟩)]⟩ := by
    unfold send_to_gs
    rw [hreg]
    rfl
  have hrun := _do_send_to_gs_eq_of_resolved st regs ack task fp g gsu
    hget hgs hgsparse
  rw [hsend] at hrun
  exact ⟨by rw [hrun], by rw [hrun], by rw [hrun]⟩

theorem c6_witness :
    (_do_send_to_gs [(idA, fpOk)] [gsUuidNorm] "ack"
        ⟨idA, "cp", "aid", "alice"⟩).transportCalls
      = [(gsUuidNorm, ⟨⟨"schedule_transmission",
            some "2025-01-01T12:00:00+01:00", some "SAT-1"⟩, ["cp"]⟩)]
    ∧ (_do_send_to_gs [(idA, fpOk)] [gsUuidNorm] "ack"
        ⟨idA, "cp", "aid", "alice"⟩).outcome = DispatchOutcome.completed "ack"
    ∧ (_do_send_to_gs [(idA, fpOk)] [gsUuidNorm] "ack"
        ⟨idA, "cp", "aid", "alice"⟩).auditEvents
      = [⟨"ApprovedForSendOffEvent",
          [⟨"sentBy", .user "alice"⟩, ⟨"used", .artifact "aid"⟩,
           ⟨"sentTo", .system gsUuidNorm⟩]⟩] :=
  c6_frame_contents [(idA, fpOk)] [gsUuidNorm] "ack"
    ⟨idA, "cp", "aid", "alice"⟩ fpOk gsUuidStr gsUuidNorm rfl rfl rfl rfl

/-- Claim C7 (confirmed): when the ground-station identifier of a
dispatched plan does not resolve in the directory, the background worker
terminates normally (no raised outcome) with the failure value
"GS not found", and the transport is never invoked; nothing is surfaced to
the caller of the decision handler, whose response had already been
produced before the task ran. -/
theorem c7_unresolved_gs (st : Registry) (regs : List UUIDv) (ack : String)
    (task : DispatchTask) (fp : FlightPlan) (g : String) (gsu : UUIDv)
    (hget : dictGet st task.flight_plan_uuid = some fp)
    (hgs : fp.gs_id = some g) (hgsparse : parseUUID g = some gsu)
    (hreg : regs.contains gsu = false) :
    (_do_send_to_gs st regs ack task).outcome
        = DispatchOutcome.completed "GS not found"
    ∧ (_do_send_to_gs st regs ack task).transportCalls = [] := by
  have hsend : send_to_gs regs ack task.artifact_id task.compiled_plan gsu
      fp.datetime fp.sat_name = ⟨"GS not found", []⟩ := by
    unfold send_to_gs
    rw [hreg]
    rfl
  have hrun := _do_send_to_gs_eq_of_resolved st regs ack task fp g gsu
    hget hgs hgsparse
  rw [hsend] at hrun
  exact ⟨by rw [hrun], by rw [hrun]⟩

theorem c7_witness :
    (_do_send_to_gs [(idA, fpOk)] [] "ack"
        ⟨idA, "cp", "aid", "alice"⟩).outcome
        = DispatchOutcome.completed "GS not found"
    ∧ (_do_send_to_gs [(idA, fpOk)] [] "ack"
        ⟨idA, "cp", "aid", "alice"⟩).transportCalls = [] :=
  c7_unresolved_gs [(idA, fpOk)] [] "ack" ⟨idA, "cp", "aid", "alice"⟩
    fpOk gsUuidStr gsUuidNorm rfl rfl rfl rfl

/-- Claim C8 (confirmed): when the artifact store reports that identical
content already exists (the sqlalchemy `IntegrityError` carrying the
existing reference), a valid submission still succeeds: the handler reuses
the reported reference, inserts exactly one new registry entry under the
freshly generated identifier, emits the submission audit event carrying
that reference, and returns the generated identifier with the success
message — duplicate content is never a failure. -/
theorem c8_duplicate_artifact_reused (st : Registry) (fp : FlightPlan)
    (user_id : String) (ex : String) (fresh : UUIDv)
    (h1 : isMissingField fp.sat_name = false)
    (h2 : isMissingField fp.datetime = false)
    (h3 : isMissingField fp.gs_id = false)
    (hfresh : dictGet st fresh = none) :
    new_flihtplan_schedule st fp user_id (ArtifactOutcome.integrityError ex) fresh
      = ⟨SaveResult.scheduled "Flight plan scheduled for approval" fresh,
         st ++ [(fresh, fp)],
         [⟨"FlightplanSaveEvent",
           [⟨"startedBy", .user user_id⟩, ⟨"created", .artifact ex⟩]⟩]⟩ := by
  unfold new_flihtplan_schedule
  simp only [h1, h2, h3, Bool.false_eq_true, if_false, dictSet,
    eraseKey_of_get_none st fresh hfresh]

theorem c8_witness :
    new_flihtplan_schedule [] fpOk "alice"
        (ArtifactOutcome.integrityError "existing-sha") idA
      = ⟨SaveResult.scheduled "Flight plan scheduled for approval" idA,
         [(idA, fpOk)],
         [⟨"FlightplanSaveEvent",
           [⟨"startedBy", .user "alice"⟩,
            ⟨"created", .artifact "existing-sha"⟩]⟩]⟩ :=
  c8_duplicate_artifact_reused [] fpOk "alice" "existing-sha" idA
    rfl rfl rfl rfl

/-- Claim C10 (confirmed): when the compiler invocation fails during an
approve decision on a present identifier, the exception propagates
(`compileError` outcome), the registry is unchanged by the failed call and
the entry is still present (available for a later decision), and no
dispatch task is scheduled; a dispatch task is scheduled only when the
compiler returns successfully, as the successful-compile case shows. -/
theorem c10_compile_failure_keeps_entry (st : Registry) (s : String)
    (u : UUIDv) (fp : FlightPlan) (g : String) (gsu : UUIDv)
    (user_id : String) (cp : PyDict) (aid : String)
    (hparse : parseUUID s = some u) (hget : dictGet st u = some fp)
    (hgs : fp.gs_id = some g) (hgsparse : parseUUID g = some gsu) :
    approve_flight_plan st s true user_id none
      = ⟨ApproveOutcome.compileError, st, [], [(fp.flight_plan, user_id)], []⟩
    ∧ dictGet (approve_flight_plan st s true user_id
        none).flight_plans_missing_approval u = some fp
    ∧ (approve_flight_plan st s true user_id (some (cp, aid))).tasks
        = [⟨u, cp, aid, user_id⟩] := by
  have hfail : approve_flight_plan st s true user_id none
      = ⟨ApproveOutcome.compileError, st, [], [(fp.flight_plan, user_id)], []⟩ := by
    unfold approve_flight_plan
    simp only [hparse, hget, hgs, hgsparse]
    rfl
  have hok : (approve_flight_plan st s true user_id (some (cp, aid))).tasks
      = [⟨u, cp, aid, user_id⟩] := by
    unfold approve_flight_plan
    simp only [hparse, hget, hgs, hgsparse]
    rfl
  exact ⟨hfail, by rw [hfail]; exact hget, hok⟩

theorem c10_witness :
    approve_flight_plan [(idA, fpOk)] idA true "alice" none
      = ⟨ApproveOutcome.compileError, [(idA, fpOk)],
         [], [("commands-body", "alice")], []⟩
    ∧ dictGet (approve_flight_plan [(idA, fpOk)] idA true "alice"
        none).flight_plans_missing_approval idA = some fpOk
    ∧ (approve_flight_plan [(idA, fpOk)] idA true "alice"
        (some ("cp", "aid"))).tasks = [⟨idA, "cp", "aid", "alice"⟩] :=
  c10_compile_failure_keeps_entry [(idA, fpOk)] idA idA fpOk gsUuidStr
    gsUuidNorm "alice" "cp" "aid" rfl rfl rfl rfl

end SatOP
